import Mathlib

/-!
Verification of the tract CLI pipeline driver (`cli/src/params.rs`,
`Parameters::pipeline`) and of the NNEF grammar parser
(`nnef/src/parser.rs`) against the repository specification.

The pipeline driver is embedded as an explicit stage table: the `stage!` macro of the source expands, at each of its eleven call sites, to the same
take/run/store/stop-check block, which is captured once by `mkStage`; the
straight-line macro-expanded function body is captured by folding
`runStages` over the list of stages that the `if let` chain of the source
selects (`pipelineStages`).  Model kinds (`InferenceModel`, `TypedModel`,
`PulsedModel`), the error type and the stage semantics are abstract type
and function parameters: every claim below is about the control
flow of the driver, which is independent of them.
-/

namespace TractCli

universe u

/-- The three driver-owned model slots: `inference_model`, `typed_model`,
`pulsed_model` (locals of `Parameters::pipeline`). -/
structure DriverSt (IM TM PM : Type u) where
  inferenceModel : Option IM
  typedModel : Option TM
  pulsedModel : Option PM
  deriving DecidableEq, Repr

/-- A model behind `Box<dyn Model>` / `Arc<dyn Model>`: one of the three
concrete model kinds. -/
inductive AModel (IM TM PM : Type u) where
  | inference (m : IM)
  | typed (m : TM)
  | pulsed (m : PM)
  deriving DecidableEq, Repr

/-- Outcome of running one stage on the driver state. -/
inductive StepOut (IM TM PM E : Type u) where
  | panicked
  | fail (last : Option (AModel IM TM PM)) (e : E)
  | ok (st : DriverSt IM TM PM) (main : AModel IM TM PM)
  deriving DecidableEq

/-- One pipeline stage: its name (the token `stop_at` is compared against)
and its action on the driver state. -/
structure StageDesc (IM TM PM E : Type u) where
  name : String
  run : DriverSt IM TM PM → StepOut IM TM PM E

/-- The body of the `stage!` macro of the source: snapshot the `from` slot when
`keep_last` is set, take the `from` slot (`$from.take().unwrap()`, a panic
when it is empty), run the stage block, and on success store the output in
the `to` slot. -/
def mkStage {IM TM PM E : Type u} {A B : Type u} (keepLast : Bool) (name : String)
    (fromGet : DriverSt IM TM PM → Option A)
    (fromClear : DriverSt IM TM PM → DriverSt IM TM PM)
    (toSet : DriverSt IM TM PM → Option B → DriverSt IM TM PM)
    (wrapA : A → AModel IM TM PM) (wrapB : B → AModel IM TM PM)
    (block : A → Except E B) : StageDesc IM TM PM E where
  name := name
  run := fun st =>
    let last : Option (AModel IM TM PM) := if keepLast then (fromGet st).map wrapA else none
    match fromGet st with
    | none => .panicked
    | some a =>
      match block a with
      | .error e => .fail last e
      | .ok b => .ok (toSet (fromClear st) (some b)) (wrapB b)

/-- Result of `Parameters::pipeline`: the `Ok` triple
`(tract_model, typed_model, pulsed_model)`, the `Err` case
`ModelError(last_model, e)`, or a Rust panic (`unwrap` on an empty slot). -/
inductive POut (IM TM PM E : Type u) where
  | ok (main : AModel IM TM PM) (typed : Option TM) (pulsed : Option PM)
  | modelError (last : Option (AModel IM TM PM)) (e : E)
  | panicked
  deriving DecidableEq

/-- Run the stages in order, also recording the trace of stage names that
were started (the source logs a Running line naming each).  After a stage
succeeds, if `stop_at` equals the stage name the driver returns the
just-produced model together with the current `typed_model` and
`pulsed_model` slots.  After the last stage the source returns
`(typed_model.clone().unwrap(), typed_model, pulsed_model)`. -/
def runStages {IM TM PM E : Type u} (stopAt : String) :
    List (StageDesc IM TM PM E) → DriverSt IM TM PM → List String →
    POut IM TM PM E × List String
  | [], st, tr =>
    match st.typedModel with
    | some t => (.ok (.typed t) st.typedModel st.pulsedModel, tr)
    | none => (.panicked, tr)
  | d :: rest, st, tr =>
    match d.run st with
    | .panicked => (.panicked, tr ++ [d.name])
    | .fail last e => (.modelError last e, tr ++ [d.name])
    | .ok st' main =>
      if stopAt = d.name then (.ok main st'.typedModel st'.pulsedModel, tr ++ [d.name])
      else runStages stopAt rest st' (tr ++ [d.name])

/-- Abstract semantics of the stage blocks (the model methods the blocks
call); the control flow of the driver does not depend on them. -/
structure StageFns (IM TM PM E : Type u) where
  analyse : Bool → IM → Except E IM
  tfPreproc : IM → Except E IM
  incorporate : IM → Except E IM
  intoTyped : IM → Except E TM
  declutter : TM → Except E TM
  concretizeStreamDim : Nat → TM → Except E TM
  pulsedModelNew : Nat → TM → Except E PM
  pulsedIntoTyped : PM → Except E TM
  optimize : TM → Except E TM

/-- The already-parsed command-line options `Parameters::pipeline` reads:
`verbose` (giving `keep_last`), `pulse`, `concretize_stream_dim`, `pass`,
`optimize` and `analyse_fail_fast`. -/
structure PipeConfig where
  verbose : Bool
  pulse : Option Nat
  concretizeStreamDim : Option Nat
  pass : Option String
  optimize : Bool
  analyseFailFast : Bool
  deriving DecidableEq, Repr

/-- The `stop_at` computation (params.rs lines 365-373): the explicit
`pass` option, else `optimize` when the optimize flag is present, else the
declutter stage of the selected optional branch, else `declutter`. -/
def stopAtOf (c : PipeConfig) : String :=
  c.pass.getD
    (if c.optimize then "optimize"
     else if c.concretizeStreamDim.isSome then "concretize-stream-dim-declutter"
     else if c.pulse.isSome then "pulse-declutter"
     else "declutter")

/-- Read the `inference_model` slot. -/
def infGet {IM TM PM : Type u} (st : DriverSt IM TM PM) : Option IM := st.inferenceModel

/-- Take (`Option::take`) the `inference_model` slot. -/
def infClear {IM TM PM : Type u} (st : DriverSt IM TM PM) : DriverSt IM TM PM :=
  { st with inferenceModel := none }

/-- Store into the `inference_model` slot. -/
def infSet {IM TM PM : Type u} (st : DriverSt IM TM PM) (v : Option IM) : DriverSt IM TM PM :=
  { st with inferenceModel := v }

/-- Read the `typed_model` slot. -/
def typGet {IM TM PM : Type u} (st : DriverSt IM TM PM) : Option TM := st.typedModel

/-- Take the `typed_model` slot. -/
def typClear {IM TM PM : Type u} (st : DriverSt IM TM PM) : DriverSt IM TM PM :=
  { st with typedModel := none }

/-- Store into the `typed_model` slot. -/
def typSet {IM TM PM : Type u} (st : DriverSt IM TM PM) (v : Option TM) : DriverSt IM TM PM :=
  { st with typedModel := v }

/-- Read the `pulsed_model` slot. -/
def pulGet {IM TM PM : Type u} (st : DriverSt IM TM PM) : Option PM := st.pulsedModel

/-- Take the `pulsed_model` slot. -/
def pulClear {IM TM PM : Type u} (st : DriverSt IM TM PM) : DriverSt IM TM PM :=
  { st with pulsedModel := none }

/-- Store into the `pulsed_model` slot. -/
def pulSet {IM TM PM : Type u} (st : DriverSt IM TM PM) (v : Option PM) : DriverSt IM TM PM :=
  { st with pulsedModel := v }

/-- The stage list of `Parameters::pipeline` (lines 400-419): the eleven
`stage!` call sites, with the `tf-preproc` stage present exactly when
`tf_model_extensions` is `Some`, the concretize branch when
`concretize_stream_dim` is `Some`, else the pulse branch when `pulse` is
`Some`. -/
def pipelineStages {IM TM PM E : Type u} (S : StageFns IM TM PM E) (c : PipeConfig)
    (tfExt : Bool) : List (StageDesc IM TM PM E) :=
  let kl := c.verbose
  [mkStage kl "load" infGet infClear infSet .inference .inference (fun m => .ok m),
   mkStage kl "analyse" infGet infClear infSet .inference .inference
     (fun m => S.analyse c.analyseFailFast m)]
  ++ (if tfExt then
        [mkStage kl "tf-preproc" infGet infClear infSet .inference .inference S.tfPreproc]
      else [])
  ++ [mkStage kl "incorporate" infGet infClear infSet .inference .inference S.incorporate,
      mkStage kl "type" infGet infClear typSet .inference .typed S.intoTyped,
      mkStage kl "declutter" typGet typClear typSet .typed .typed S.declutter]
  ++ (match c.concretizeStreamDim with
      | some dim =>
        [mkStage kl "concretize-stream-dim" typGet typClear typSet .typed .typed
           (S.concretizeStreamDim dim),
         mkStage kl "concretize-stream-dim-declutter" typGet typClear typSet .typed .typed
           S.declutter]
      | none =>
        match c.pulse with
        | some p =>
          [mkStage kl "pulse" typGet typClear pulSet .typed .pulsed (S.pulsedModelNew p),
           mkStage kl "pulse-to-type" pulGet pulClear typSet .pulsed .typed S.pulsedIntoTyped,
           mkStage kl "pulse-declutter" typGet typClear typSet .typed .typed S.declutter]
        | none => [])
  ++ [mkStage kl "optimize" typGet typClear typSet .typed .typed S.optimize]

/-- `Parameters::pipeline`: run the stage sequence on the freshly loaded
raw model, starting from the state where only `inference_model` is set. -/
def pipelineRun {IM TM PM E : Type u} (S : StageFns IM TM PM E) (c : PipeConfig)
    (tfExt : Bool) (raw : IM) : POut IM TM PM E × List String :=
  runStages (stopAtOf c) (pipelineStages S c tfExt) ⟨some raw, none, none⟩ []

/-- Run a list of stages assuming no stop and no failure: `some` final
state when every stage succeeds. -/
def runAll {IM TM PM E : Type u} :
    List (StageDesc IM TM PM E) → DriverSt IM TM PM → Option (DriverSt IM TM PM)
  | [], st => some st
  | d :: rest, st =>
    match d.run st with
    | .ok st' _ => runAll rest st'
    | _ => none

/-- The prefix of a name list up to and including the first occurrence of
`x` (the whole list when `x` does not occur). -/
def upTo (x : String) : List String → List String
  | [] => []
  | a :: r => if a = x then [a] else a :: upTo x r

/-- The stage-name sequence of the full stage list of a run, as dictated by the
configuration. -/
def stageOrder (c : PipeConfig) (tfExt : Bool) : List String :=
  ["load", "analyse"]
  ++ (if tfExt then ["tf-preproc"] else [])
  ++ ["incorporate", "type", "declutter"]
  ++ (match c.concretizeStreamDim with
      | some _ => ["concretize-stream-dim", "concretize-stream-dim-declutter"]
      | none =>
        match c.pulse with
        | some _ => ["pulse", "pulse-to-type", "pulse-declutter"]
        | none => [])
  ++ ["optimize"]

/-- The stage-name vocabulary the specification lists for stop-at
selection. -/
def claimedStopTokens : List String :=
  ["load", "analyse", "incorporate", "type", "declutter", "concretize-stream-dim",
   "concretize-stream-dim-declutter", "pulse", "pulse-to-type", "pulse-declutter", "optimize"]

/-- The stage-name vocabulary actually present in `Parameters::pipeline`:
the claimed tokens plus `tf-preproc`. -/
def fullStopTokens : List String :=
  ["load", "analyse", "tf-preproc", "incorporate", "type", "declutter", "concretize-stream-dim",
   "concretize-stream-dim-declutter", "pulse", "pulse-to-type", "pulse-declutter", "optimize"]

/-- ASCII digit test, as the Rust `char::is_ascii_digit` (`0`-`9`). -/
def isAsciiDigit (c : Char) : Bool := 48 ≤ c.toNat && c.toNat ≤ 57

/-- ASCII letter test, as the Rust `char::is_ascii_alphabetic`
(`A`-`Z`, `a`-`z`). -/
def isAsciiAlpha (c : Char) : Bool :=
  (65 ≤ c.toNat && c.toNat ≤ 90) || (97 ≤ c.toNat && c.toNat ≤ 122)

/-- Strip the optional leading `+` sign accepted by the Rust
`usize::from_str`. -/
def stripPlus (s : List Char) : List Char :=
  match s with
  | c :: r => if c = '+' then r else c :: r
  | [] => []

/-- Decimal value of a digit string. -/
def digitsVal (s : List Char) : Nat :=
  s.foldl (fun a c => a * 10 + (c.toNat - 48)) 0

/-- The Rust `str::parse::<usize>` on a 64-bit target: an optional leading
`+`, then one or more ASCII digits whose value fits in a `usize`;
everything else (in particular any `-` sign) is a parse error. -/
def parseUsize (s : List Char) : Option Nat :=
  if stripPlus s ≠ [] ∧ (stripPlus s).all isAsciiDigit then
    if digitsVal (stripPlus s) < 2 ^ 64 then some (digitsVal (stripPlus s)) else none
  else none

/-- The pulse / concretize-stream-dim option parsing of
`Parameters::pipeline` (lines 356-359):
`matches.value_of(..).map(|s| s.parse::<usize>()).transpose()?` — an
absent option is `None`, a parse failure aborts with an error. -/
def parseOptUsizeArg : Option (List Char) → Except Unit (Option Nat)
  | none => .ok none
  | some s =>
    match parseUsize s with
    | some n => .ok (some n)
    | none => .error ()

/-- Stage semantics over `Nat` models where every block succeeds;
`declutter` and `optimize` change the model so that stage outputs are
distinguishable. -/
def idFns : StageFns Nat Nat Nat Unit where
  analyse := fun _ m => .ok m
  tfPreproc := fun m => .ok m
  incorporate := fun m => .ok m
  intoTyped := fun m => .ok m
  declutter := fun m => .ok (m + 1)
  concretizeStreamDim := fun _ m => .ok m
  pulsedModelNew := fun _ m => .ok m
  pulsedIntoTyped := fun m => .ok m
  optimize := fun m => .ok (m + 7)

/-- Stage semantics identical to `idFns` except that the `declutter`
block fails. -/
def failFns : StageFns Nat Nat Nat Unit :=
  { idFns with declutter := fun _ => .error () }

/-- Default configuration: no options given. -/
def cDefault : PipeConfig :=
  { verbose := false, pulse := none, concretizeStreamDim := none, pass := none,
    optimize := false, analyseFailFast := false }

/-- Configuration requesting stop at `declutter`. -/
def cPassDeclutter : PipeConfig := { cDefault with pass := some "declutter" }

/-- Default configuration with the verbose (keep-last-snapshot) flag. -/
def cVerbose : PipeConfig := { cDefault with verbose := true }

/-- Configuration requesting stop at `tf-preproc`. -/
def cTfPre : PipeConfig := { cDefault with pass := some "tf-preproc" }

/-- Configuration with a concretize-stream-dim value. -/
def cWithCsd : PipeConfig := { cDefault with concretizeStreamDim := some 4 }

/-- Configuration with a pulse value. -/
def cWithPulse : PipeConfig := { cDefault with pulse := some 4 }

end TractCli

/-!
Embedding of the NNEF text parser (`nnef/src/parser.rs`).  The parser is
written with nom 5 combinators over `&str`; it is embedded over
`List Char`, a parser being a function from the input to `none` (parse
error) or `some (rest, value)`.  The looping combinators (`many0`,
`many1`, `separated_list`, `fold_many0`) carry the nom no-progress guard —
an inner parser that succeeds without consuming input aborts the loop
with an error — which also bounds the number of iterations by the input
length, so a fuel of `length + 1` makes them total without changing their
behaviour.  The recursive grammar productions (`rvalue`, `invocation`,
`argument`, inner lvalues) take the same guard-derived fuel: every cycle
through them consumes at least one character, so the fuel chosen by the
top-level entry points is never exhausted on the inputs reaching them.
-/

namespace Nnef

open TractCli (isAsciiDigit isAsciiAlpha)

/-- Parser input: the remaining characters of the source text. -/
abbrev Input := List Char

/-- A nom parser: fails, or returns the remaining input and a value. -/
abbrev P (α : Type) := Input → Option (Input × α)

/-- nom `map`. -/
def pMap {α β : Type} (p : P α) (f : α → β) : P β := fun i =>
  match p i with
  | some (i2, a) => some (i2, f a)
  | none => none

/-- nom `tag`: match a literal. -/
def tag (s : List Char) : P (List Char) := fun i =>
  if s.isPrefixOf i then some (i.drop s.length, s) else none

/-- nom `alt`: first succeeding alternative. -/
def altL {α : Type} : List (P α) → P α
  | [] => fun _ => none
  | p :: ps => fun i =>
    match p i with
    | some r => some r
    | none => altL ps i

/-- nom `opt`. -/
def opt {α : Type} (p : P α) : P (Option α) := fun i =>
  match p i with
  | some (i2, a) => some (i2, some a)
  | none => some (i, none)

/-- nom `pair`. -/
def pairP {α β : Type} (p : P α) (q : P β) : P (α × β) := fun i =>
  match p i with
  | none => none
  | some (i1, a) =>
    match q i1 with
    | none => none
    | some (i2, b) => some (i2, (a, b))

/-- nom `preceded`. -/
def preceded {α β : Type} (p : P α) (q : P β) : P β := fun i =>
  match p i with
  | none => none
  | some (i1, _) => q i1

/-- nom `terminated`. -/
def terminated {α β : Type} (p : P α) (q : P β) : P α := fun i =>
  match p i with
  | none => none
  | some (i1, a) =>
    match q i1 with
    | none => none
    | some (i2, _) => some (i2, a)

/-- nom `delimited`. -/
def delimited {α β γ : Type} (p : P α) (q : P β) (r : P γ) : P β := fun i =>
  match p i with
  | none => none
  | some (i1, _) =>
    match q i1 with
    | none => none
    | some (i2, b) =>
      match r i2 with
      | none => none
      | some (i3, _) => some (i3, b)

/-- nom `separated_pair`. -/
def separated_pair {α β γ : Type} (p : P α) (sep : P β) (q : P γ) : P (α × γ) := fun i =>
  match p i with
  | none => none
  | some (i1, a) =>
    match sep i1 with
    | none => none
    | some (i2, _) =>
      match q i2 with
      | none => none
      | some (i3, c) => some (i3, (a, c))

/-- nom `recognize`: return the consumed slice. -/
def recognize {α : Type} (p : P α) : P (List Char) := fun i =>
  match p i with
  | some (i2, _) => some (i2, i.take (i.length - i2.length))
  | none => none

/-- nom `one_of`. -/
def one_of (s : List Char) : P Char := fun i =>
  match i with
  | c :: r => if s.contains c then some (r, c) else none
  | [] => none

/-- nom `none_of`. -/
def none_of (s : List Char) : P Char := fun i =>
  match i with
  | c :: r => if s.contains c then none else some (r, c)
  | [] => none

/-- nom `anychar`. -/
def anychar : P Char := fun i =>
  match i with
  | c :: r => some (r, c)
  | [] => none

/-- Longest nonempty prefix of characters satisfying `f` (the shape of
the nom `alpha1`, `digit1`, `alphanumeric1` over complete input). -/
def takeWhile1 (f : Char → Bool) : P (List Char) := fun i =>
  let t := i.takeWhile f
  if t.isEmpty then none else some (i.drop t.length, t)

/-- Unicode codepoint ranges above `0x7f` of the letter categories
(Lu, Ll, Lt, Lm, Lo) and of the letter numbers (Nl), generated from the
Unicode character database: the table behind the Rust
`char::is_alphabetic` that nom 5 `AsChar::is_alpha` calls for `char`.
(The Unicode Alphabetic property additionally lists some combining marks
as Other_Alphabetic; no character reasoned about below lies in that
difference.) -/
def alphabeticRanges : List (Nat × Nat) :=
  [(0xaa, 0xaa), (0xb5, 0xb5), (0xba, 0xba), (0xc0, 0xd6), (0xd8, 0xf6),
   (0xf8, 0x2c1), (0x2c6, 0x2d1), (0x2e0, 0x2e4), (0x2ec, 0x2ec), (0x2ee, 0x2ee),
   (0x370, 0x374), (0x376, 0x377), (0x37a, 0x37d), (0x37f, 0x37f), (0x386, 0x386),
   (0x388, 0x38a), (0x38c, 0x38c), (0x38e, 0x3a1), (0x3a3, 0x3f5), (0x3f7, 0x481),
   (0x48a, 0x52f), (0x531, 0x556), (0x559, 0x559), (0x560, 0x588), (0x5d0, 0x5ea),
   (0x5ef, 0x5f2), (0x620, 0x64a), (0x66e, 0x66f), (0x671, 0x6d3), (0x6d5, 0x6d5),
   (0x6e5, 0x6e6), (0x6ee, 0x6ef), (0x6fa, 0x6fc), (0x6ff, 0x6ff), (0x710, 0x710),
   (0x712, 0x72f), (0x74d, 0x7a5), (0x7b1, 0x7b1), (0x7ca, 0x7ea), (0x7f4, 0x7f5),
   (0x7fa, 0x7fa), (0x800, 0x815), (0x81a, 0x81a), (0x824, 0x824), (0x828, 0x828),
   (0x840, 0x858), (0x860, 0x86a), (0x870, 0x887), (0x889, 0x88e), (0x8a0, 0x8c9),
   (0x904, 0x939), (0x93d, 0x93d), (0x950, 0x950), (0x958, 0x961), (0x971, 0x980),
   (0x985, 0x98c), (0x98f, 0x990), (0x993, 0x9a8), (0x9aa, 0x9b0), (0x9b2, 0x9b2),
   (0x9b6, 0x9b9), (0x9bd, 0x9bd), (0x9ce, 0x9ce), (0x9dc, 0x9dd), (0x9df, 0x9e1),
   (0x9f0, 0x9f1), (0x9fc, 0x9fc), (0xa05, 0xa0a), (0xa0f, 0xa10), (0xa13, 0xa28),
   (0xa2a, 0xa30), (0xa32, 0xa33), (0xa35, 0xa36), (0xa38, 0xa39), (0xa59, 0xa5c),
   (0xa5e, 0xa5e), (0xa72, 0xa74), (0xa85, 0xa8d), (0xa8f, 0xa91), (0xa93, 0xaa8),
   (0xaaa, 0xab0), (0xab2, 0xab3), (0xab5, 0xab9), (0xabd, 0xabd), (0xad0, 0xad0),
   (0xae0, 0xae1), (0xaf9, 0xaf9), (0xb05, 0xb0c), (0xb0f, 0xb10), (0xb13, 0xb28),
   (0xb2a, 0xb30), (0xb32, 0xb33), (0xb35, 0xb39), (0xb3d, 0xb3d), (0xb5c, 0xb5d),
   (0xb5f, 0xb61), (0xb71, 0xb71), (0xb83, 0xb83), (0xb85, 0xb8a), (0xb8e, 0xb90),
   (0xb92, 0xb95), (0xb99, 0xb9a), (0xb9c, 0xb9c), (0xb9e, 0xb9f), (0xba3, 0xba4),
   (0xba8, 0xbaa), (0xbae, 0xbb9), (0xbd0, 0xbd0), (0xc05, 0xc0c), (0xc0e, 0xc10),
   (0xc12, 0xc28), (0xc2a, 0xc39), (0xc3d, 0xc3d), (0xc58, 0xc5a), (0xc5d, 0xc5d),
   (0xc60, 0xc61), (0xc80, 0xc80), (0xc85, 0xc8c), (0xc8e, 0xc90), (0xc92, 0xca8),
   (0xcaa, 0xcb3), (0xcb5, 0xcb9), (0xcbd, 0xcbd), (0xcdd, 0xcde), (0xce0, 0xce1),
   (0xcf1, 0xcf2), (0xd04, 0xd0c), (0xd0e, 0xd10), (0xd12, 0xd3a), (0xd3d, 0xd3d),
   (0xd4e, 0xd4e), (0xd54, 0xd56), (0xd5f, 0xd61), (0xd7a, 0xd7f), (0xd85, 0xd96),
   (0xd9a, 0xdb1), (0xdb3, 0xdbb), (0xdbd, 0xdbd), (0xdc0, 0xdc6), (0xe01, 0xe30),
   (0xe32, 0xe33), (0xe40, 0xe46), (0xe81, 0xe82), (0xe84, 0xe84), (0xe86, 0xe8a),
   (0xe8c, 0xea3), (0xea5, 0xea5), (0xea7, 0xeb0), (0xeb2, 0xeb3), (0xebd, 0xebd),
   (0xec0, 0xec4), (0xec6, 0xec6), (0xedc, 0xedf), (0xf00, 0xf00), (0xf40, 0xf47),
   (0xf49, 0xf6c), (0xf88, 0xf8c), (0x1000, 0x102a), (0x103f, 0x103f), (0x1050, 0x1055),
   (0x105a, 0x105d), (0x1061, 0x1061), (0x1065, 0x1066), (0x106e, 0x1070), (0x1075, 0x1081),
   (0x108e, 0x108e), (0x10a0, 0x10c5), (0x10c7, 0x10c7), (0x10cd, 0x10cd), (0x10d0, 0x10fa),
   (0x10fc, 0x1248), (0x124a, 0x124d), (0x1250, 0x1256), (0x1258, 0x1258), (0x125a, 0x125d),
   (0x1260, 0x1288), (0x128a, 0x128d), (0x1290, 0x12b0), (0x12b2, 0x12b5), (0x12b8, 0x12be),
   (0x12c0, 0x12c0), (0x12c2, 0x12c5), (0x12c8, 0x12d6), (0x12d8, 0x1310), (0x1312, 0x1315),
   (0x1318, 0x135a), (0x1380, 0x138f), (0x13a0, 0x13f5), (0x13f8, 0x13fd), (0x1401, 0x166c),
   (0x166f, 0x167f), (0x1681, 0x169a), (0x16a0, 0x16ea), (0x16ee, 0x16f8), (0x1700, 0x1711),
   (0x171f, 0x1731), (0x1740, 0x1751), (0x1760, 0x176c), (0x176e, 0x1770), (0x1780, 0x17b3),
   (0x17d7, 0x17d7), (0x17dc, 0x17dc), (0x1820, 0x1878), (0x1880, 0x1884), (0x1887, 0x18a8),
   (0x18aa, 0x18aa), (0x18b0, 0x18f5), (0x1900, 0x191e), (0x1950, 0x196d), (0x1970, 0x1974),
   (0x1980, 0x19ab), (0x19b0, 0x19c9), (0x1a00, 0x1a16), (0x1a20, 0x1a54), (0x1aa7, 0x1aa7),
   (0x1b05, 0x1b33), (0x1b45, 0x1b4c), (0x1b83, 0x1ba0), (0x1bae, 0x1baf), (0x1bba, 0x1be5),
   (0x1c00, 0x1c23), (0x1c4d, 0x1c4f), (0x1c5a, 0x1c7d), (0x1c80, 0x1c88), (0x1c90, 0x1cba),
   (0x1cbd, 0x1cbf), (0x1ce9, 0x1cec), (0x1cee, 0x1cf3), (0x1cf5, 0x1cf6), (0x1cfa, 0x1cfa),
   (0x1d00, 0x1dbf), (0x1e00, 0x1f15), (0x1f18, 0x1f1d), (0x1f20, 0x1f45), (0x1f48, 0x1f4d),
   (0x1f50, 0x1f57), (0x1f59, 0x1f59), (0x1f5b, 0x1f5b), (0x1f5d, 0x1f5d), (0x1f5f, 0x1f7d),
   (0x1f80, 0x1fb4), (0x1fb6, 0x1fbc), (0x1fbe, 0x1fbe), (0x1fc2, 0x1fc4), (0x1fc6, 0x1fcc),
   (0x1fd0, 0x1fd3), (0x1fd6, 0x1fdb), (0x1fe0, 0x1fec), (0x1ff2, 0x1ff4), (0x1ff6, 0x1ffc),
   (0x2071, 0x2071), (0x207f, 0x207f), (0x2090, 0x209c), (0x2102, 0x2102), (0x2107, 0x2107),
   (0x210a, 0x2113), (0x2115, 0x2115), (0x2119, 0x211d), (0x2124, 0x2124), (0x2126, 0x2126),
   (0x2128, 0x2128), (0x212a, 0x212d), (0x212f, 0x2139), (0x213c, 0x213f), (0x2145, 0x2149),
   (0x214e, 0x214e), (0x2160, 0x2188), (0x2c00, 0x2ce4), (0x2ceb, 0x2cee), (0x2cf2, 0x2cf3),
   (0x2d00, 0x2d25), (0x2d27, 0x2d27), (0x2d2d, 0x2d2d), (0x2d30, 0x2d67), (0x2d6f, 0x2d6f),
   (0x2d80, 0x2d96), (0x2da0, 0x2da6), (0x2da8, 0x2dae), (0x2db0, 0x2db6), (0x2db8, 0x2dbe),
   (0x2dc0, 0x2dc6), (0x2dc8, 0x2dce), (0x2dd0, 0x2dd6), (0x2dd8, 0x2dde), (0x2e2f, 0x2e2f),
   (0x3005, 0x3007), (0x3021, 0x3029), (0x3031, 0x3035), (0x3038, 0x303c), (0x3041, 0x3096),
   (0x309d, 0x309f), (0x30a1, 0x30fa), (0x30fc, 0x30ff), (0x3105, 0x312f), (0x3131, 0x318e),
   (0x31a0, 0x31bf), (0x31f0, 0x31ff), (0x3400, 0x4dbf), (0x4e00, 0xa48c), (0xa4d0, 0xa4fd),
   (0xa500, 0xa60c), (0xa610, 0xa61f), (0xa62a, 0xa62b), (0xa640, 0xa66e), (0xa67f, 0xa69d),
   (0xa6a0, 0xa6ef), (0xa717, 0xa71f), (0xa722, 0xa788), (0xa78b, 0xa7ca), (0xa7d0, 0xa7d1),
   (0xa7d3, 0xa7d3), (0xa7d5, 0xa7d9), (0xa7f2, 0xa801), (0xa803, 0xa805), (0xa807, 0xa80a),
   (0xa80c, 0xa822), (0xa840, 0xa873), (0xa882, 0xa8b3), (0xa8f2, 0xa8f7), (0xa8fb, 0xa8fb),
   (0xa8fd, 0xa8fe), (0xa90a, 0xa925), (0xa930, 0xa946), (0xa960, 0xa97c), (0xa984, 0xa9b2),
   (0xa9cf, 0xa9cf), (0xa9e0, 0xa9e4), (0xa9e6, 0xa9ef), (0xa9fa, 0xa9fe), (0xaa00, 0xaa28),
   (0xaa40, 0xaa42), (0xaa44, 0xaa4b), (0xaa60, 0xaa76), (0xaa7a, 0xaa7a), (0xaa7e, 0xaaaf),
   (0xaab1, 0xaab1), (0xaab5, 0xaab6), (0xaab9, 0xaabd), (0xaac0, 0xaac0), (0xaac2, 0xaac2),
   (0xaadb, 0xaadd), (0xaae0, 0xaaea), (0xaaf2, 0xaaf4), (0xab01, 0xab06), (0xab09, 0xab0e),
   (0xab11, 0xab16), (0xab20, 0xab26), (0xab28, 0xab2e), (0xab30, 0xab5a), (0xab5c, 0xab69),
   (0xab70, 0xabe2), (0xac00, 0xd7a3), (0xd7b0, 0xd7c6), (0xd7cb, 0xd7fb), (0xf900, 0xfa6d),
   (0xfa70, 0xfad9), (0xfb00, 0xfb06), (0xfb13, 0xfb17), (0xfb1d, 0xfb1d), (0xfb1f, 0xfb28),
   (0xfb2a, 0xfb36), (0xfb38, 0xfb3c), (0xfb3e, 0xfb3e), (0xfb40, 0xfb41), (0xfb43, 0xfb44),
   (0xfb46, 0xfbb1), (0xfbd3, 0xfd3d), (0xfd50, 0xfd8f), (0xfd92, 0xfdc7), (0xfdf0, 0xfdfb),
   (0xfe70, 0xfe74), (0xfe76, 0xfefc), (0xff21, 0xff3a), (0xff41, 0xff5a), (0xff66, 0xffbe),
   (0xffc2, 0xffc7), (0xffca, 0xffcf), (0xffd2, 0xffd7), (0xffda, 0xffdc), (0x10000, 0x1000b),
   (0x1000d, 0x10026), (0x10028, 0x1003a), (0x1003c, 0x1003d), (0x1003f, 0x1004d), (0x10050, 0x1005d),
   (0x10080, 0x100fa), (0x10140, 0x10174), (0x10280, 0x1029c), (0x102a0, 0x102d0), (0x10300, 0x1031f),
   (0x1032d, 0x1034a), (0x10350, 0x10375), (0x10380, 0x1039d), (0x103a0, 0x103c3), (0x103c8, 0x103cf),
   (0x103d1, 0x103d5), (0x10400, 0x1049d), (0x104b0, 0x104d3), (0x104d8, 0x104fb), (0x10500, 0x10527),
   (0x10530, 0x10563), (0x10570, 0x1057a), (0x1057c, 0x1058a), (0x1058c, 0x10592), (0x10594, 0x10595),
   (0x10597, 0x105a1), (0x105a3, 0x105b1), (0x105b3, 0x105b9), (0x105bb, 0x105bc), (0x10600, 0x10736),
   (0x10740, 0x10755), (0x10760, 0x10767), (0x10780, 0x10785), (0x10787, 0x107b0), (0x107b2, 0x107ba),
   (0x10800, 0x10805), (0x10808, 0x10808), (0x1080a, 0x10835), (0x10837, 0x10838), (0x1083c, 0x1083c),
   (0x1083f, 0x10855), (0x10860, 0x10876), (0x10880, 0x1089e), (0x108e0, 0x108f2), (0x108f4, 0x108f5),
   (0x10900, 0x10915), (0x10920, 0x10939), (0x10980, 0x109b7), (0x109be, 0x109bf), (0x10a00, 0x10a00),
   (0x10a10, 0x10a13), (0x10a15, 0x10a17), (0x10a19, 0x10a35), (0x10a60, 0x10a7c), (0x10a80, 0x10a9c),
   (0x10ac0, 0x10ac7), (0x10ac9, 0x10ae4), (0x10b00, 0x10b35), (0x10b40, 0x10b55), (0x10b60, 0x10b72),
   (0x10b80, 0x10b91), (0x10c00, 0x10c48), (0x10c80, 0x10cb2), (0x10cc0, 0x10cf2), (0x10d00, 0x10d23),
   (0x10e80, 0x10ea9), (0x10eb0, 0x10eb1), (0x10f00, 0x10f1c), (0x10f27, 0x10f27), (0x10f30, 0x10f45),
   (0x10f70, 0x10f81), (0x10fb0, 0x10fc4), (0x10fe0, 0x10ff6), (0x11003, 0x11037), (0x11071, 0x11072),
   (0x11075, 0x11075), (0x11083, 0x110af), (0x110d0, 0x110e8), (0x11103, 0x11126), (0x11144, 0x11144),
   (0x11147, 0x11147), (0x11150, 0x11172), (0x11176, 0x11176), (0x11183, 0x111b2), (0x111c1, 0x111c4),
   (0x111da, 0x111da), (0x111dc, 0x111dc), (0x11200, 0x11211), (0x11213, 0x1122b), (0x11280, 0x11286),
   (0x11288, 0x11288), (0x1128a, 0x1128d), (0x1128f, 0x1129d), (0x1129f, 0x112a8), (0x112b0, 0x112de),
   (0x11305, 0x1130c), (0x1130f, 0x11310), (0x11313, 0x11328), (0x1132a, 0x11330), (0x11332, 0x11333),
   (0x11335, 0x11339), (0x1133d, 0x1133d), (0x11350, 0x11350), (0x1135d, 0x11361), (0x11400, 0x11434),
   (0x11447, 0x1144a), (0x1145f, 0x11461), (0x11480, 0x114af), (0x114c4, 0x114c5), (0x114c7, 0x114c7),
   (0x11580, 0x115ae), (0x115d8, 0x115db), (0x11600, 0x1162f), (0x11644, 0x11644), (0x11680, 0x116aa),
   (0x116b8, 0x116b8), (0x11700, 0x1171a), (0x11740, 0x11746), (0x11800, 0x1182b), (0x118a0, 0x118df),
   (0x118ff, 0x11906), (0x11909, 0x11909), (0x1190c, 0x11913), (0x11915, 0x11916), (0x11918, 0x1192f),
   (0x1193f, 0x1193f), (0x11941, 0x11941), (0x119a0, 0x119a7), (0x119aa, 0x119d0), (0x119e1, 0x119e1),
   (0x119e3, 0x119e3), (0x11a00, 0x11a00), (0x11a0b, 0x11a32), (0x11a3a, 0x11a3a), (0x11a50, 0x11a50),
   (0x11a5c, 0x11a89), (0x11a9d, 0x11a9d), (0x11ab0, 0x11af8), (0x11c00, 0x11c08), (0x11c0a, 0x11c2e),
   (0x11c40, 0x11c40), (0x11c72, 0x11c8f), (0x11d00, 0x11d06), (0x11d08, 0x11d09), (0x11d0b, 0x11d30),
   (0x11d46, 0x11d46), (0x11d60, 0x11d65), (0x11d67, 0x11d68), (0x11d6a, 0x11d89), (0x11d98, 0x11d98),
   (0x11ee0, 0x11ef2), (0x11fb0, 0x11fb0), (0x12000, 0x12399), (0x12400, 0x1246e), (0x12480, 0x12543),
   (0x12f90, 0x12ff0), (0x13000, 0x1342e), (0x14400, 0x14646), (0x16800, 0x16a38), (0x16a40, 0x16a5e),
   (0x16a70, 0x16abe), (0x16ad0, 0x16aed), (0x16b00, 0x16b2f), (0x16b40, 0x16b43), (0x16b63, 0x16b77),
   (0x16b7d, 0x16b8f), (0x16e40, 0x16e7f), (0x16f00, 0x16f4a), (0x16f50, 0x16f50), (0x16f93, 0x16f9f),
   (0x16fe0, 0x16fe1), (0x16fe3, 0x16fe3), (0x17000, 0x187f7), (0x18800, 0x18cd5), (0x18d00, 0x18d08),
   (0x1aff0, 0x1aff3), (0x1aff5, 0x1affb), (0x1affd, 0x1affe), (0x1b000, 0x1b122), (0x1b150, 0x1b152),
   (0x1b164, 0x1b167), (0x1b170, 0x1b2fb), (0x1bc00, 0x1bc6a), (0x1bc70, 0x1bc7c), (0x1bc80, 0x1bc88),
   (0x1bc90, 0x1bc99), (0x1d400, 0x1d454), (0x1d456, 0x1d49c), (0x1d49e, 0x1d49f), (0x1d4a2, 0x1d4a2),
   (0x1d4a5, 0x1d4a6), (0x1d4a9, 0x1d4ac), (0x1d4ae, 0x1d4b9), (0x1d4bb, 0x1d4bb), (0x1d4bd, 0x1d4c3),
   (0x1d4c5, 0x1d505), (0x1d507, 0x1d50a), (0x1d50d, 0x1d514), (0x1d516, 0x1d51c), (0x1d51e, 0x1d539),
   (0x1d53b, 0x1d53e), (0x1d540, 0x1d544), (0x1d546, 0x1d546), (0x1d54a, 0x1d550), (0x1d552, 0x1d6a5),
   (0x1d6a8, 0x1d6c0), (0x1d6c2, 0x1d6da), (0x1d6dc, 0x1d6fa), (0x1d6fc, 0x1d714), (0x1d716, 0x1d734),
   (0x1d736, 0x1d74e), (0x1d750, 0x1d76e), (0x1d770, 0x1d788), (0x1d78a, 0x1d7a8), (0x1d7aa, 0x1d7c2),
   (0x1d7c4, 0x1d7cb), (0x1df00, 0x1df1e), (0x1e100, 0x1e12c), (0x1e137, 0x1e13d), (0x1e14e, 0x1e14e),
   (0x1e290, 0x1e2ad), (0x1e2c0, 0x1e2eb), (0x1e7e0, 0x1e7e6), (0x1e7e8, 0x1e7eb), (0x1e7ed, 0x1e7ee),
   (0x1e7f0, 0x1e7fe), (0x1e800, 0x1e8c4), (0x1e900, 0x1e943), (0x1e94b, 0x1e94b), (0x1ee00, 0x1ee03),
   (0x1ee05, 0x1ee1f), (0x1ee21, 0x1ee22), (0x1ee24, 0x1ee24), (0x1ee27, 0x1ee27), (0x1ee29, 0x1ee32),
   (0x1ee34, 0x1ee37), (0x1ee39, 0x1ee39), (0x1ee3b, 0x1ee3b), (0x1ee42, 0x1ee42), (0x1ee47, 0x1ee47),
   (0x1ee49, 0x1ee49), (0x1ee4b, 0x1ee4b), (0x1ee4d, 0x1ee4f), (0x1ee51, 0x1ee52), (0x1ee54, 0x1ee54),
   (0x1ee57, 0x1ee57), (0x1ee59, 0x1ee59), (0x1ee5b, 0x1ee5b), (0x1ee5d, 0x1ee5d), (0x1ee5f, 0x1ee5f),
   (0x1ee61, 0x1ee62), (0x1ee64, 0x1ee64), (0x1ee67, 0x1ee6a), (0x1ee6c, 0x1ee72), (0x1ee74, 0x1ee77),
   (0x1ee79, 0x1ee7c), (0x1ee7e, 0x1ee7e), (0x1ee80, 0x1ee89), (0x1ee8b, 0x1ee9b), (0x1eea1, 0x1eea3),
   (0x1eea5, 0x1eea9), (0x1eeab, 0x1eebb), (0x20000, 0x2a6df), (0x2a700, 0x2b738), (0x2b740, 0x2b81d),
   (0x2b820, 0x2cea1), (0x2ceb0, 0x2ebe0), (0x2f800, 0x2fa1d), (0x30000, 0x3134a)]

/-- Unicode codepoint ranges above `0x7f` of the number categories
(Nd, Nl, No), the table behind the Rust `char::is_numeric`. -/
def numericRanges : List (Nat × Nat) :=
  [(0xb2, 0xb3), (0xb9, 0xb9), (0xbc, 0xbe), (0x660, 0x669), (0x6f0, 0x6f9),
   (0x7c0, 0x7c9), (0x966, 0x96f), (0x9e6, 0x9ef), (0x9f4, 0x9f9), (0xa66, 0xa6f),
   (0xae6, 0xaef), (0xb66, 0xb6f), (0xb72, 0xb77), (0xbe6, 0xbf2), (0xc66, 0xc6f),
   (0xc78, 0xc7e), (0xce6, 0xcef), (0xd58, 0xd5e), (0xd66, 0xd78), (0xde6, 0xdef),
   (0xe50, 0xe59), (0xed0, 0xed9), (0xf20, 0xf33), (0x1040, 0x1049), (0x1090, 0x1099),
   (0x1369, 0x137c), (0x16ee, 0x16f0), (0x17e0, 0x17e9), (0x17f0, 0x17f9), (0x1810, 0x1819),
   (0x1946, 0x194f), (0x19d0, 0x19da), (0x1a80, 0x1a89), (0x1a90, 0x1a99), (0x1b50, 0x1b59),
   (0x1bb0, 0x1bb9), (0x1c40, 0x1c49), (0x1c50, 0x1c59), (0x2070, 0x2070), (0x2074, 0x2079),
   (0x2080, 0x2089), (0x2150, 0x2182), (0x2185, 0x2189), (0x2460, 0x249b), (0x24ea, 0x24ff),
   (0x2776, 0x2793), (0x2cfd, 0x2cfd), (0x3007, 0x3007), (0x3021, 0x3029), (0x3038, 0x303a),
   (0x3192, 0x3195), (0x3220, 0x3229), (0x3248, 0x324f), (0x3251, 0x325f), (0x3280, 0x3289),
   (0x32b1, 0x32bf), (0xa620, 0xa629), (0xa6e6, 0xa6ef), (0xa830, 0xa835), (0xa8d0, 0xa8d9),
   (0xa900, 0xa909), (0xa9d0, 0xa9d9), (0xa9f0, 0xa9f9), (0xaa50, 0xaa59), (0xabf0, 0xabf9),
   (0xff10, 0xff19), (0x10107, 0x10133), (0x10140, 0x10178), (0x1018a, 0x1018b), (0x102e1, 0x102fb),
   (0x10320, 0x10323), (0x10341, 0x10341), (0x1034a, 0x1034a), (0x103d1, 0x103d5), (0x104a0, 0x104a9),
   (0x10858, 0x1085f), (0x10879, 0x1087f), (0x108a7, 0x108af), (0x108fb, 0x108ff), (0x10916, 0x1091b),
   (0x109bc, 0x109bd), (0x109c0, 0x109cf), (0x109d2, 0x109ff), (0x10a40, 0x10a48), (0x10a7d, 0x10a7e),
   (0x10a9d, 0x10a9f), (0x10aeb, 0x10aef), (0x10b58, 0x10b5f), (0x10b78, 0x10b7f), (0x10ba9, 0x10baf),
   (0x10cfa, 0x10cff), (0x10d30, 0x10d39), (0x10e60, 0x10e7e), (0x10f1d, 0x10f26), (0x10f51, 0x10f54),
   (0x10fc5, 0x10fcb), (0x11052, 0x1106f), (0x110f0, 0x110f9), (0x11136, 0x1113f), (0x111d0, 0x111d9),
   (0x111e1, 0x111f4), (0x112f0, 0x112f9), (0x11450, 0x11459), (0x114d0, 0x114d9), (0x11650, 0x11659),
   (0x116c0, 0x116c9), (0x11730, 0x1173b), (0x118e0, 0x118f2), (0x11950, 0x11959), (0x11c50, 0x11c6c),
   (0x11d50, 0x11d59), (0x11da0, 0x11da9), (0x11fc0, 0x11fd4), (0x12400, 0x1246e), (0x16a60, 0x16a69),
   (0x16ac0, 0x16ac9), (0x16b50, 0x16b59), (0x16b5b, 0x16b61), (0x16e80, 0x16e96), (0x1d2e0, 0x1d2f3),
   (0x1d360, 0x1d378), (0x1d7ce, 0x1d7ff), (0x1e140, 0x1e149), (0x1e2f0, 0x1e2f9), (0x1e8c7, 0x1e8cf),
   (0x1e950, 0x1e959), (0x1ec71, 0x1ecab), (0x1ecad, 0x1ecaf), (0x1ecb1, 0x1ecb4), (0x1ed01, 0x1ed2d),
   (0x1ed2f, 0x1ed3d), (0x1f100, 0x1f10c), (0x1fbf0, 0x1fbf9)]

/-- Membership of a codepoint in a sorted range table. -/
def inRanges (rs : List (Nat × Nat)) (n : Nat) : Bool :=
  rs.any fun r => r.1 ≤ n && n ≤ r.2

/-- Rust `char::is_alphabetic`, as used by nom 5 `alpha1` over `&str`:
an ASCII letter, or a codepoint above `0x7f` in the Alphabetic table. -/
def isAlphabetic (c : Char) : Bool :=
  isAsciiAlpha c || (decide (0x7f < c.toNat) && inRanges alphabeticRanges c.toNat)

/-- Rust `char::is_numeric`: an ASCII digit, or a codepoint above `0x7f`
in the numeric table. -/
def isNumericChar (c : Char) : Bool :=
  isAsciiDigit c || (decide (0x7f < c.toNat) && inRanges numericRanges c.toNat)

/-- Rust `char::is_alphanumeric`, as used by nom 5 `alphanumeric1` over
`&str`. -/
def isAlphanumeric (c : Char) : Bool := isAlphabetic c || isNumericChar c

/-- nom `alpha1` for `&str`: one or more Unicode-alphabetic characters
(nom 5 `AsChar::is_alpha` for `char` is `char::is_alphabetic`, not the
ASCII-only test of later nom releases). -/
def alpha1 : P (List Char) := takeWhile1 isAlphabetic

/-- nom `alphanumeric1` for `&str`: one or more Unicode alphanumeric
characters (`char::is_alphanumeric`). -/
def alphanumeric1 : P (List Char) := takeWhile1 isAlphanumeric

/-- nom `digit1`: one or more ASCII digits. -/
def digit1 : P (List Char) := takeWhile1 isAsciiDigit

/-- nom `digit0`: zero or more ASCII digits. -/
def digit0 : P (List Char) := fun i =>
  some (i.drop (i.takeWhile isAsciiDigit).length, i.takeWhile isAsciiDigit)

/-- Fueled loop of nom `many0`; an iteration that consumes nothing is an
error (the nom infinite-loop guard), so iterations strictly shrink the
input and the fuel `length + 1` is never exhausted. -/
def many0F {α : Type} (p : P α) : Nat → P (List α)
  | 0 => fun _ => none
  | n + 1 => fun i =>
    match p i with
    | none => some (i, [])
    | some (i2, a) =>
      if i2.length < i.length then
        match many0F p n i2 with
        | some (i3, rest) => some (i3, a :: rest)
        | none => none
      else none

/-- nom `many0`. -/
def many0 {α : Type} (p : P α) : P (List α) := fun i => many0F p (i.length + 1) i

/-- nom `many1`. -/
def many1 {α : Type} (p : P α) : P (List α) := fun i =>
  match p i with
  | none => none
  | some (i2, a) =>
    match many0 p i2 with
    | some (i3, rest) => some (i3, a :: rest)
    | none => none

/-- Fueled tail of nom `separated_list`: separator then element, stopping
(without consuming the separator) when either fails; a round that
consumes nothing is an error. -/
def sepLoop {α β : Type} (sep : P β) (p : P α) : Nat → Input → List α → Option (Input × List α)
  | 0, _, _ => none
  | n + 1, i, acc =>
    match sep i with
    | none => some (i, acc)
    | some (i1, _) =>
      match p i1 with
      | none => some (i, acc)
      | some (i2, a) =>
        if i2.length < i.length then sepLoop sep p n i2 (acc ++ [a]) else none

/-- nom `separated_list`: possibly empty list of `p` separated by `sep`;
a first element that consumes nothing is an error. -/
def separated_list {α β : Type} (sep : P β) (p : P α) : P (List α) := fun i =>
  match p i with
  | none => some (i, [])
  | some (i1, a) =>
    if i1.length < i.length then sepLoop sep p (i1.length + 1) i1 [a] else none

/-- Fueled loop of nom `fold_many0`. -/
def fold_many0F {α β : Type} (p : P α) (g : β → α → β) : Nat → β → Input → Option (Input × β)
  | 0, _, _ => none
  | n + 1, acc, i =>
    match p i with
    | none => some (i, acc)
    | some (i2, a) =>
      if i2.length < i.length then fold_many0F p g n (g acc a) i2 else none

/-- nom `fold_many0`. -/
def fold_many0 {α β : Type} (p : P α) (init : β) (g : β → α → β) : P β := fun i =>
  fold_many0F p g (i.length + 1) init i

/-- `space_and_comments`: spaces, tabs, newlines and `#`-to-end-of-line
comments. -/
def space_and_comments : P Unit :=
  pMap
    (many0 (altL [recognize (one_of (" \t\n\r".toList)),
                  recognize (pairP (tag ("#".toList)) (many0 (none_of ("\r\n".toList))))]))
    (fun _ => ())

/-- `spaced`: a parser surrounded by spaces and comments. -/
def spaced {α : Type} (p : P α) : P α := delimited space_and_comments p space_and_comments

/-- NNEF `type-name` AST. -/
inductive TypeName where
  | integer
  | scalar
  | logical
  | string
  | any
  deriving DecidableEq, Repr

/-- Numeric literal (kept as source text, as in the Rust AST). -/
structure NumericLiteral where
  val : List Char
  deriving DecidableEq, Repr

/-- String literal contents. -/
structure StringLiteral where
  val : List Char
  deriving DecidableEq, Repr

/-- Logical literal. -/
structure LogicalLiteral where
  val : Bool
  deriving DecidableEq, Repr

/-- NNEF literal AST. -/
inductive Literal where
  | numeric (n : NumericLiteral)
  | string (s : StringLiteral)
  | logical (b : LogicalLiteral)
  | array (vals : List Literal)
  | tuple (vals : List Literal)

/-- NNEF lvalue AST. -/
inductive LValue where
  | identifier (id : List Char)
  | array (vals : List LValue)
  | tuple (vals : List LValue)

mutual

/-- NNEF rvalue AST. -/
inductive RValue where
  | identifier (id : List Char)
  | literal (lit : Literal)
  | binary (left : RValue) (op : List Char) (right : RValue)
  | unary (op : List Char) (operand : RValue)
  | tuple (vals : List RValue)
  | array (vals : List RValue)
  | invocation (inv : Invocation)

/-- NNEF invocation AST. -/
inductive Invocation where
  | mk (id : List Char) (generic_type_name : Option TypeName) (arguments : List Argument)

/-- NNEF argument AST. -/
inductive Argument where
  | mk (id : Option (List Char)) (rvalue : RValue)

end

/-- NNEF assignment AST. -/
structure Assignment where
  left : LValue
  right : RValue

/-- `identifier`: `recognize(pair(alpha1, many0(alt((alphanumeric1,
tag("_"))))))` — an ASCII letter, then letters, digits or underscores. -/
def identifier : P (List Char) :=
  pMap (recognize (pairP alpha1 (many0 (altL [alphanumeric1, tag ("_".toList)]))))
    (fun s => s)

/-- `type_name`. -/
def type_name : P TypeName :=
  spaced (altL [pMap (tag ("integer".toList)) (fun _ => TypeName.integer),
                pMap (tag ("scalar".toList)) (fun _ => TypeName.scalar),
                pMap (tag ("logical".toList)) (fun _ => TypeName.logical),
                pMap (tag ("string".toList)) (fun _ => TypeName.string),
                pMap (tag ("?".toList)) (fun _ => TypeName.any)])

/-- `numeric_literal`. -/
def numeric_literal : P NumericLiteral :=
  let exp_part : P (List Char) :=
    recognize (pairP (one_of ("eE".toList)) (pairP (opt (tag ("-".toList))) digit1))
  let frac_part : P (List Char) := recognize (pairP (tag (".".toList)) digit0)
  spaced (pMap
    (recognize (pairP (opt (tag ("-".toList)))
      (pairP digit1 (pairP (opt frac_part) (opt exp_part)))))
    (fun s => ⟨s⟩))

/-- `string_literal`: single- or double-quoted, with backslash escapes. -/
def string_literal : P StringLiteral :=
  let inner : P (List Char) :=
    many0 (altL [preceded (tag ("\\".toList)) anychar, none_of ("\\\"\x27".toList)])
  pMap (altL [delimited (tag ("\x27".toList)) inner (tag ("\x27".toList)),
              delimited (tag ("\"".toList)) inner (tag ("\"".toList))])
    (fun s => ⟨s⟩)

/-- `logical_literal`. -/
def logical_literal : P LogicalLiteral :=
  spaced (altL [pMap (tag ("true".toList)) (fun _ => ⟨true⟩),
                pMap (tag ("false".toList)) (fun _ => ⟨false⟩)])

/-- `literal`. -/
def literal : P Literal :=
  spaced (altL [pMap numeric_literal Literal.numeric,
                pMap string_literal Literal.string,
                pMap logical_literal Literal.logical])

/-- Fueled `inner_lvalue` of `lvalue`: bracketed or parenthesised lists
of inner lvalues, or an identifier; every nesting level consumes a
bracket, so the fuel of the caller bounds the depth. -/
def inner_lvalueF : Nat → P LValue
  | 0 => fun _ => none
  | n + 1 =>
    altL [pMap (delimited (spaced (tag ("[".toList)))
                  (separated_list (spaced (tag (",".toList))) (inner_lvalueF n))
                  (spaced (tag ("]".toList)))) LValue.array,
          pMap (delimited (spaced (tag ("(".toList)))
                  (separated_list (spaced (tag (",".toList))) (inner_lvalueF n))
                  (spaced (tag (")".toList)))) LValue.tuple,
          pMap (spaced identifier) LValue.identifier]

/-- `lvalue`: a comma-separated list of inner lvalues wrapped in
`LValue::Tuple`. -/
def lvalue : P LValue := fun i =>
  pMap (separated_list (spaced (tag (",".toList))) (inner_lvalueF (i.length + 1)))
    LValue.tuple i

mutual

/-- Fueled `rvalue`: the top of the binary-operator precedence chain. -/
def rvalueF : Nat → P RValue
  | 0 => fun _ => none
  | n + 1 => in_forF n

/-- `bin!(in_for, boolean, tag("in"))`. -/
def in_forF : Nat → P RValue
  | 0 => fun _ => none
  | n + 1 => fun i =>
    match booleanF n i with
    | none => none
    | some (i1, init) =>
      fold_many0 (pairP (tag ("in".toList)) (booleanF n)) init
        (fun left r => RValue.binary left r.1 r.2) i1

/-- `bin!(boolean, comp, alt(("||", "&&")))`. -/
def booleanF : Nat → P RValue
  | 0 => fun _ => none
  | n + 1 => fun i =>
    match compF n i with
    | none => none
    | some (i1, init) =>
      fold_many0 (pairP (altL [tag ("||".toList), tag ("&&".toList)]) (compF n)) init
        (fun left r => RValue.binary left r.1 r.2) i1

/-- `bin!(comp, add, alt(("==", "!=", "<", ">", "<=", ">=")))`. -/
def compF : Nat → P RValue
  | 0 => fun _ => none
  | n + 1 => fun i =>
    match addF n i with
    | none => none
    | some (i1, init) =>
      fold_many0
        (pairP (altL [tag ("==".toList), tag ("!=".toList), tag ("<".toList),
                      tag (">".toList), tag ("<=".toList), tag (">=".toList)]) (addF n))
        init (fun left r => RValue.binary left r.1 r.2) i1

/-- `bin!(add, mul, one_of("+-"))`. -/
def addF : Nat → P RValue
  | 0 => fun _ => none
  | n + 1 => fun i =>
    match mulF n i with
    | none => none
    | some (i1, init) =>
      fold_many0 (pairP (one_of ("+-".toList)) (mulF n)) init
        (fun left r => RValue.binary left [r.1] r.2) i1

/-- `bin!(mul, exp, one_of("*/"))`. -/
def mulF : Nat → P RValue
  | 0 => fun _ => none
  | n + 1 => fun i =>
    match expF n i with
    | none => none
    | some (i1, init) =>
      fold_many0 (pairP (one_of ("*/".toList)) (expF n)) init
        (fun left r => RValue.binary left [r.1] r.2) i1

/-- `bin!(exp, atom, tag("^"))`. -/
def expF : Nat → P RValue
  | 0 => fun _ => none
  | n + 1 => fun i =>
    match atomF n i with
    | none => none
    | some (i1, init) =>
      fold_many0 (pairP (tag ("^".toList)) (atomF n)) init
        (fun left r => RValue.binary left r.1 r.2) i1

/-- The `atom` alternative of `rvalue`: invocation, literal, identifier,
unary expression, parenthesised tuple, or bracketed array. -/
def atomF : Nat → P RValue
  | 0 => fun _ => none
  | n + 1 =>
    spaced (altL
      [pMap (invocationF n) RValue.invocation,
       pMap literal RValue.literal,
       pMap identifier RValue.identifier,
       pMap (pairP (spaced (recognize (one_of ("+-!".toList)))) (rvalueF n))
         (fun r => RValue.unary r.1 r.2),
       pMap (delimited (tag ("(".toList))
               (separated_list (spaced (tag (",".toList))) (rvalueF n)) (tag (")".toList)))
         (fun rvs =>
           match rvs with
           | [rv] => rv
           | _ => RValue.tuple rvs),
       pMap (delimited (tag ("[".toList))
               (separated_list (spaced (tag (",".toList))) (rvalueF n)) (tag ("]".toList)))
         RValue.array])

/-- Fueled `invocation`: identifier, optional generic type argument, and
a parenthesised argument list. -/
def invocationF : Nat → P Invocation
  | 0 => fun _ => none
  | n + 1 => fun i =>
    match spaced identifier i with
    | none => none
    | some (i1, id) =>
      match opt (delimited (spaced (tag ("<".toList))) type_name (spaced (tag (">".toList)))) i1 with
      | none => none
      | some (i2, g) =>
        match spaced (tag ("(".toList)) i2 with
        | none => none
        | some (i3, _) =>
          match argument_listF n i3 with
          | none => none
          | some (i4, args) =>
            match spaced (tag (")".toList)) i4 with
            | none => none
            | some (i5, _) => some (i5, Invocation.mk id g args)

/-- Fueled `argument_list`. -/
def argument_listF : Nat → P (List Argument)
  | 0 => fun _ => none
  | n + 1 => separated_list (spaced (tag (",".toList))) (argumentF n)

/-- Fueled `argument`: optional `identifier =` prefix, then an rvalue. -/
def argumentF : Nat → P Argument
  | 0 => fun _ => none
  | n + 1 =>
    spaced (pMap (pairP (opt (terminated identifier (spaced (tag ("=".toList))))) (rvalueF n))
      (fun r => Argument.mk r.1 r.2))

end

/-- `rvalue`: fuel `8 * (length + 1)` covers the eight-deep precedence
chain per consumed character. -/
def rvalue : P RValue := fun i => rvalueF (8 * (i.length + 1)) i

/-- `invocation`. -/
def invocation : P Invocation := fun i => invocationF (8 * (i.length + 1)) i

/-- `argument_list`. -/
def argument_list : P (List Argument) := fun i => argument_listF (8 * (i.length + 1)) i

/-- `argument`. -/
def argument : P Argument := fun i => argumentF (8 * (i.length + 1)) i

/-- `assignment`: `lvalue "=" rvalue ";"`. -/
def assignment : P Assignment :=
  spaced (terminated
    (pMap (separated_pair lvalue (spaced (tag ("=".toList))) rvalue)
      (fun r => ⟨r.1, r.2⟩))
    (spaced (tag (";".toList))))

/-- `body`: `"{" <assignment>* "}"` — the source uses `many0` although
its grammar comment says `<assignment>+`. -/
def body : P (List Assignment) :=
  delimited (spaced (tag ("\x7b".toList))) (many0 assignment) (spaced (tag ("\x7d".toList)))

end Nnef

namespace TractCli

@[simp]
theorem mkStage_name {IM TM PM E A B : Type u} (kl : Bool) (n : String)
    (fg : DriverSt IM TM PM → Option A) (fc : DriverSt IM TM PM → DriverSt IM TM PM)
    (ts : DriverSt IM TM PM → Option B → DriverSt IM TM PM)
    (wA : A → AModel IM TM PM) (wB : B → AModel IM TM PM) (bl : A → Except E B) :
    (mkStage kl n fg fc ts wA wB bl).name = n := rfl

theorem pipelineStages_names {IM TM PM E : Type u} (S : StageFns IM TM PM E)
    (c : PipeConfig) (tfExt : Bool) :
    (pipelineStages S c tfExt).map StageDesc.name = stageOrder c tfExt := by
  cases tfExt <;> rcases hc : c.concretizeStreamDim with _ | dim <;>
    rcases hp : c.pulse with _ | p <;>
    simp [pipelineStages, stageOrder, hc, hp]

theorem upTo_front (x : String) (l : List String) : upTo x l <+: l := by
  induction l with
  | nil => simp [upTo]
  | cons a r ih =>
    by_cases h : a = x
    · simp [upTo, h]
    · simpa [upTo, h] using ih

/-- The trace produced by `runStages` extends the incoming trace by a
prefix of the names up to the first occurrence of `stopAt`. -/
theorem runStages_trace {IM TM PM E : Type u} (stopAt : String) :
    ∀ (l : List (StageDesc IM TM PM E)) (st : DriverSt IM TM PM) (tr : List String),
    ∃ t, (runStages stopAt l st tr).2 = tr ++ t ∧
      t <+: upTo stopAt (l.map StageDesc.name)
  | [], st, tr => by
    refine ⟨[], ?_, by simp⟩
    unfold runStages
    cases st.typedModel <;> simp
  | d :: rest, st, tr => by
    unfold runStages
    cases hr : d.run st with
    | panicked =>
      refine ⟨[d.name], by simp, ?_⟩
      simp only [List.map_cons, upTo]
      split <;> simp
    | fail last e =>
      refine ⟨[d.name], by simp, ?_⟩
      simp only [List.map_cons, upTo]
      split <;> simp
    | ok st' main =>
      by_cases hstop : stopAt = d.name
      · refine ⟨[d.name], by simp [hstop], ?_⟩
        simp [upTo, hstop]
      · obtain ⟨t, ht, hpre⟩ := runStages_trace stopAt rest st' (tr ++ [d.name])
        refine ⟨d.name :: t, ?_, ?_⟩
        · simp [hstop, ht]
        · simp only [List.map_cons, upTo]
          rw [if_neg (fun h => hstop h.symm)]
          obtain ⟨r, hr⟩ := hpre
          exact ⟨r, by rw [List.cons_append, hr]⟩

/-- When every stage of a leading segment succeeds and none of them is the
stop stage, `runStages` just runs the segment and continues. -/
theorem runStages_append_ok {IM TM PM E : Type u} (stopAt : String) :
    ∀ (l1 l2 : List (StageDesc IM TM PM E)) (st st1 : DriverSt IM TM PM) (tr : List String),
    runAll l1 st = some st1 → stopAt ∉ l1.map StageDesc.name →
    runStages stopAt (l1 ++ l2) st tr = runStages stopAt l2 st1 (tr ++ l1.map StageDesc.name)
  | [], l2, st, st1, tr, h, _ => by
    simp only [runAll] at h
    cases h
    simp
  | d :: r, l2, st, st1, tr, h, hnot => by
    simp only [runAll] at h
    cases hr : d.run st with
    | panicked => rw [hr] at h; cases h
    | fail last e => rw [hr] at h; cases h
    | ok st' main =>
      rw [hr] at h
      have hd : stopAt ≠ d.name := by
        intro he
        exact hnot (by simp [he])
      have hrest : stopAt ∉ r.map StageDesc.name := by
        intro hm
        exact hnot (by simp [hm])
      have := runStages_append_ok stopAt r l2 st' st1 (tr ++ [d.name]) h hrest
      simp only [List.cons_append, runStages, hr, if_neg hd, List.append_eq]
      rw [this]
      simp

theorem pipelineRun_trace_le {IM TM PM E : Type u} (S : StageFns IM TM PM E)
    (c : PipeConfig) (tfExt : Bool) (raw : IM) :
    (pipelineRun S c tfExt raw).2 <+: stageOrder c tfExt := by
  obtain ⟨t, ht, hpre⟩ :=
    runStages_trace (stopAtOf c) (pipelineStages S c tfExt) ⟨some raw, none, none⟩ []
  unfold pipelineRun
  rw [ht]
  simp only [List.nil_append]
  have h2 := hpre.trans (upTo_front _ _)
  rwa [pipelineStages_names] at h2

theorem stageOrder_not_both (c : PipeConfig) (tfExt : Bool) :
    ¬("concretize-stream-dim" ∈ stageOrder c tfExt ∧ "pulse" ∈ stageOrder c tfExt) := by
  rcases hc : c.concretizeStreamDim with _ | dim <;> rcases hp : c.pulse with _ | p <;>
    cases tfExt <;> simp only [stageOrder, hc, hp] <;> decide

/-- Claim C1: when the configured stop-at name is the name of a stage of the
run and every stage before it succeeds, the driver returns the model that
this exact stage produced, immediately after it completes, and no stage
after it is started (the trace ends at the stop stage). -/
theorem stop_at_returns_stage_output {IM TM PM E : Type u} (S : StageFns IM TM PM E)
    (c : PipeConfig) (tfExt : Bool) (raw : IM)
    (l1 l2 : List (StageDesc IM TM PM E)) (d : StageDesc IM TM PM E)
    (st1 st2 : DriverSt IM TM PM) (main : AModel IM TM PM)
    (hsplit : pipelineStages S c tfExt = l1 ++ d :: l2)
    (hstop : stopAtOf c = d.name)
    (hnotin : d.name ∉ l1.map StageDesc.name)
    (hpre : runAll l1 ⟨some raw, none, none⟩ = some st1)
    (hrun : d.run st1 = .ok st2 main) :
    pipelineRun S c tfExt raw =
      (.ok main st2.typedModel st2.pulsedModel, l1.map StageDesc.name ++ [d.name]) := by
  unfold pipelineRun
  rw [hsplit,
    runStages_append_ok (stopAtOf c) l1 (d :: l2) _ st1 [] hpre (by rw [hstop]; exact hnotin)]
  simp [runStages, hrun, hstop]

/-- Witness for C1: stopping at `declutter` returns the declutter output
and the optimizer never runs. -/
theorem stop_at_returns_stage_output_witness :
    stopAtOf cPassDeclutter = "declutter" ∧
    pipelineRun idFns cPassDeclutter false 7 =
      (.ok (.typed 8) (some 8) none, ["load", "analyse", "incorporate", "type", "declutter"]) :=
  ⟨rfl,
    stop_at_returns_stage_output idFns cPassDeclutter false 7
      ((pipelineStages idFns cPassDeclutter false).take 4)
      [mkStage false "optimize" typGet typClear typSet .typed .typed idFns.optimize]
      (mkStage false "declutter" typGet typClear typSet .typed .typed idFns.declutter)
      ⟨none, some 7, none⟩ ⟨none, some 8, none⟩ (.typed 8)
      rfl rfl (by decide) rfl rfl⟩

/-- Claim C2: the stage table of a run is named in exactly the order load, analyse,
optional tf-preproc, incorporate, type, declutter, then optionally the
concretize or the pulse branch, then optimize; the executed stages are a
prefix of that order, so none runs out of order or twice. -/
theorem pipeline_stage_order {IM TM PM E : Type u} (S : StageFns IM TM PM E) (c : PipeConfig)
    (tfExt : Bool) (raw : IM) :
    (pipelineStages S c tfExt).map StageDesc.name = stageOrder c tfExt ∧
    (pipelineRun S c tfExt raw).2 <+: stageOrder c tfExt :=
  ⟨pipelineStages_names S c tfExt, pipelineRun_trace_le S c tfExt raw⟩

/-- Claim C3 counterexample: without the verbose option a failing stage (here
`declutter`) yields `ModelError` with no model snapshot at all, although
a pre-stage model existed. -/
theorem failure_returns_no_snapshot :
    pipelineRun failFns cDefault false 0 =
      (.modelError none (), ["load", "analyse", "incorporate", "type", "declutter"]) := rfl

/-- Claim C3 amended: only when the verbose (`keep_last`) option is set does a
stage failure return the error paired with the snapshot of the model the
failing stage consumed (the last good state); the trace ends at the
failing stage. -/
theorem failure_with_snapshot_under_verbose {IM TM PM E A B : Type u}
    (S : StageFns IM TM PM E) (c : PipeConfig) (tfExt : Bool) (raw : IM)
    (l1 l2 : List (StageDesc IM TM PM E)) (d : StageDesc IM TM PM E)
    (st1 : DriverSt IM TM PM) (n : String)
    (fg : DriverSt IM TM PM → Option A) (fc : DriverSt IM TM PM → DriverSt IM TM PM)
    (ts : DriverSt IM TM PM → Option B → DriverSt IM TM PM)
    (wA : A → AModel IM TM PM) (wB : B → AModel IM TM PM) (bl : A → Except E B)
    (a : A) (e : E)
    (hv : c.verbose = true)
    (hsplit : pipelineStages S c tfExt = l1 ++ d :: l2)
    (hnostop : stopAtOf c ∉ l1.map StageDesc.name)
    (hpre : runAll l1 ⟨some raw, none, none⟩ = some st1)
    (hd : d = mkStage c.verbose n fg fc ts wA wB bl)
    (hfrom : fg st1 = some a)
    (hblock : bl a = .error e) :
    pipelineRun S c tfExt raw =
      (.modelError (some (wA a)) e, l1.map StageDesc.name ++ [n]) := by
  unfold pipelineRun
  rw [hsplit, runStages_append_ok (stopAtOf c) l1 (d :: l2) _ st1 [] hpre hnostop]
  subst hd
  rw [hv]
  simp [runStages, mkStage, hfrom, hblock]

/-- Witness for the amended C3: with verbose set, the failing declutter
stage returns the typed model it received as the snapshot. -/
theorem failure_with_snapshot_under_verbose_witness :
    cVerbose.verbose = true ∧
    pipelineRun failFns cVerbose false 3 =
      (.modelError (some (.typed 3)) (), ["load", "analyse", "incorporate", "type", "declutter"]) :=
  ⟨rfl,
    failure_with_snapshot_under_verbose failFns cVerbose false 3
      ((pipelineStages failFns cVerbose false).take 4)
      [mkStage true "optimize" typGet typClear typSet .typed .typed failFns.optimize]
      (mkStage true "declutter" typGet typClear typSet .typed .typed failFns.declutter)
      ⟨none, some 3, none⟩ "declutter" typGet typClear typSet AModel.typed AModel.typed
      failFns.declutter 3 ()
      rfl rfl (by decide) rfl rfl rfl rfl⟩

/-- Claim C4: no run ever executes both a concretize-stream-dim stage and a
pulse stage — one of the two is always absent from the executed trace. -/
theorem csd_pulse_never_both {IM TM PM E : Type u} (S : StageFns IM TM PM E) (c : PipeConfig)
    (tfExt : Bool) (raw : IM) :
    "concretize-stream-dim" ∉ (pipelineRun S c tfExt raw).2 ∨
    "pulse" ∉ (pipelineRun S c tfExt raw).2 := by
  by_contra hboth
  push_neg at hboth
  have hsub := (pipelineRun_trace_le S c tfExt raw).subset
  exact stageOrder_not_both c tfExt ⟨hsub hboth.1, hsub hboth.2⟩

/-- Claim C5: a stage consumes the current model of the driver by value — the
`from` slot is taken before the block runs — and on success the block output
is stored as the new current model; taken slots read back as `none`. -/
theorem stage_consumes_by_value {IM TM PM E A B : Type u} (kl : Bool) (n : String)
    (fromGet : DriverSt IM TM PM → Option A)
    (fromClear : DriverSt IM TM PM → DriverSt IM TM PM)
    (toSet : DriverSt IM TM PM → Option B → DriverSt IM TM PM)
    (wA : A → AModel IM TM PM) (wB : B → AModel IM TM PM) (block : A → Except E B)
    (st : DriverSt IM TM PM) (a : A) (b : B)
    (hfrom : fromGet st = some a) (hblock : block a = .ok b) :
    (mkStage kl n fromGet fromClear toSet wA wB block).run st =
      .ok (toSet (fromClear st) (some b)) (wB b) ∧
    (∀ s : DriverSt IM TM PM,
      infGet (infClear s) = none ∧ typGet (typClear s) = none ∧ pulGet (pulClear s) = none) := by
  refine ⟨?_, fun s => ⟨rfl, rfl, rfl⟩⟩
  simp [mkStage, hfrom, hblock]

/-- Witness for C5: the declutter stage on a typed model `5` stores the
block output `6` and clears nothing else. -/
theorem stage_consumes_by_value_witness :
    (mkStage false "declutter" typGet typClear typSet AModel.typed AModel.typed
      idFns.declutter).run ⟨none, some 5, none⟩ =
      .ok (⟨none, some 6, none⟩ : DriverSt Nat Nat Nat) (.typed 6) :=
  (stage_consumes_by_value false "declutter" typGet typClear typSet AModel.typed AModel.typed
    idFns.declutter ⟨none, some 5, none⟩ 5 6 rfl rfl).1

/-- Claim C6 counterexample: `tf-preproc` is a recognized stop-at token — a run
with TF extensions and stop-at `tf-preproc` stops there — yet it is not
in the claimed vocabulary. -/
theorem tf_preproc_token_exists :
    pipelineRun idFns cTfPre true 0 =
      (.ok (.inference 0) none none, ["load", "analyse", "tf-preproc"]) ∧
    "tf-preproc" ∉ claimedStopTokens :=
  ⟨rfl, by decide⟩

/-- Claim C6 amended: the stage-name vocabulary is exactly the claimed tokens
plus `tf-preproc`: the stage names of every run lie in that set, and every
token of the set occurs in some run. -/
theorem stage_vocabulary {IM TM PM E : Type u} (S : StageFns IM TM PM E) (c : PipeConfig)
    (tfExt : Bool) :
    (pipelineStages S c tfExt).map StageDesc.name ⊆ fullStopTokens ∧
    (∀ t ∈ fullStopTokens,
      t ∈ (pipelineStages S cWithCsd true).map StageDesc.name ∨
      t ∈ (pipelineStages S cWithPulse true).map StageDesc.name) := by
  rw [pipelineStages_names, pipelineStages_names, pipelineStages_names]
  constructor
  · rcases hc : c.concretizeStreamDim with _ | dim <;> rcases hp : c.pulse with _ | p <;>
      cases tfExt <;> simp only [stageOrder, hc, hp] <;> decide
  · decide

/-- Claim C7 counterexample: the pulse option string `0` is accepted by the
the configuration parsing of the driver with value `0`, which is not positive. -/
theorem pulse_zero_accepted :
    parseOptUsizeArg (some ("0".toList)) = .ok (some 0) ∧ ¬(0 < 0) :=
  ⟨rfl, by decide⟩

/-- Claim C7 amended: configuration parsing accepts exactly the strings that
parse as a Rust `usize` — any string of ASCII digits whose value fits,
zero included — and rejects signed-negative strings with an error;
positivity is not checked at parse time. -/
theorem pulse_accepts_any_usize :
    (∀ s : List Char, s ≠ [] → s.all isAsciiDigit = true → digitsVal s < 2 ^ 64 →
      parseOptUsizeArg (some s) = .ok (some (digitsVal s))) ∧
    (∀ s : List Char, parseOptUsizeArg (some ('-' :: s)) = .error ()) := by
  constructor
  · intro s hne hdig hlt
    have hsp : stripPlus s = s := by
      cases s with
      | nil => exact absurd rfl hne
      | cons c t =>
        have hc : c ≠ '+' := by
          intro he
          rw [List.all_cons, he, Bool.and_eq_true] at hdig
          exact absurd hdig.1 (by decide)
        simp [stripPlus, hc]
    simp only [parseOptUsizeArg, parseUsize]
    rw [hsp, if_pos ⟨hne, hdig⟩, if_pos hlt]
  · intro s
    have hneg : ('-' :: s).all isAsciiDigit = false := by
      rw [List.all_cons, show isAsciiDigit '-' = false from by decide, Bool.false_and]
    simp [parseOptUsizeArg, parseUsize, stripPlus, hneg]

/-- Witness for the amended C7: `42` is accepted with value 42, `-1` is
rejected. -/
theorem pulse_accepts_any_usize_witness :
    parseOptUsizeArg (some ("42".toList)) = .ok (some 42) ∧
    parseOptUsizeArg (some ("-1".toList)) = .error () :=
  ⟨pulse_accepts_any_usize.1 ("42".toList) (by decide) (by decide) (by decide),
   pulse_accepts_any_usize.2 ("1".toList)⟩

/-- Claim C8: with no pass and no optimize flag the stop stage defaults to the
concretize declutter, the pulse declutter, or plain declutter, and the
optimize stage never appears in the executed trace. -/
theorem default_stop_skips_optimize {IM TM PM E : Type u} (S : StageFns IM TM PM E)
    (c : PipeConfig) (tfExt : Bool) (raw : IM)
    (hpass : c.pass = none) (hopt : c.optimize = false) :
    stopAtOf c = (if c.concretizeStreamDim.isSome then "concretize-stream-dim-declutter"
                  else if c.pulse.isSome then "pulse-declutter" else "declutter") ∧
    "optimize" ∉ (pipelineRun S c tfExt raw).2 := by
  have hstop : stopAtOf c =
      (if c.concretizeStreamDim.isSome then "concretize-stream-dim-declutter"
       else if c.pulse.isSome then "pulse-declutter" else "declutter") := by
    simp [stopAtOf, hpass, hopt]
  refine ⟨hstop, fun hmem => ?_⟩
  obtain ⟨t, ht, hpre⟩ :=
    runStages_trace (stopAtOf c) (pipelineStages S c tfExt) ⟨some raw, none, none⟩ []
  unfold pipelineRun at hmem
  rw [ht, List.nil_append] at hmem
  have hmem' : "optimize" ∈ upTo (stopAtOf c) (stageOrder c tfExt) := by
    have hs := hpre.subset
    rw [pipelineStages_names] at hs
    exact hs hmem
  rcases hc : c.concretizeStreamDim with _ | dim <;> rcases hp : c.pulse with _ | p <;>
    cases tfExt <;> simp [hstop, hc, hp, stageOrder] at hmem' <;>
    exact absurd hmem' (by decide)

/-- Witness for C8: the all-defaults run stops at `declutter` and never
reaches `optimize`. -/
theorem default_stop_skips_optimize_witness :
    stopAtOf cDefault = "declutter" ∧ "optimize" ∉ (pipelineRun idFns cDefault false 0).2 :=
  default_stop_skips_optimize idFns cDefault false 0 rfl rfl

end TractCli

namespace Nnef

open TractCli (isAsciiDigit isAsciiAlpha)

theorem isAsciiDigit_not_alphabetic (c : Char) (h : isAsciiDigit c = true) :
    isAlphabetic c = false := by
  simp only [TractCli.isAsciiDigit, Bool.and_eq_true, decide_eq_true_eq] at h
  have h1 : isAsciiAlpha c = false := by
    simp only [TractCli.isAsciiAlpha, Bool.or_eq_false_iff, Bool.and_eq_false_iff,
      decide_eq_false_iff_not, not_le]
    omega
  have h2 : decide (0x7f < c.toNat) = false := by
    simp only [decide_eq_false_iff_not, not_lt]
    omega
  simp [isAlphabetic, h1, h2]

theorem identifier_head_not_alphabetic {c : Char} (hc : isAlphabetic c = false) (t : Input) :
    identifier (c :: t) = none := by
  have h1 : alpha1 (c :: t) = none := by
    unfold alpha1 takeWhile1
    rw [List.takeWhile_cons, hc]
    simp
  simp [identifier, pMap, recognize, pairP, h1]

/-- Claim C9: the body parser accepts a body with zero assignments — on
the two-character input of an opening and a closing brace it succeeds,
consumes everything, and returns the empty assignment list, because the
source uses `many0` where its grammar comment requires at least one
assignment. -/
theorem body_accepts_empty : body ("\x7b\x7d".toList) = some ([], []) := rfl

/-- Claim C10 counterexample: the identifier parser does not demand an
ASCII first letter — on the accented input été it succeeds and consumes
everything, although é (U+00E9) is not an ASCII letter, because nom 5
`alpha1` over `&str` tests Unicode `char::is_alphabetic`. -/
theorem identifier_accepts_unicode_letter :
    identifier ("été".toList) = some ([], "été".toList) ∧ isAsciiAlpha 'é' = false :=
  ⟨rfl, by decide⟩

/-- Claim C10 amended: the identifier parser succeeds only when the first
input character is Unicode-alphabetic (`char::is_alphabetic`, the test
nom 5 `alpha1` uses), and any input starting with an ASCII digit or an
underscore is rejected. -/
theorem identifier_head_alphabetic :
    (∀ (i : Input) (r : Input × List Char), identifier i = some r →
      ∃ c t, i = c :: t ∧ isAlphabetic c = true) ∧
    (∀ (c : Char) (t : Input), isAsciiDigit c = true ∨ c = '_' →
      identifier (c :: t) = none) := by
  constructor
  · intro i r h
    cases i with
    | nil => rw [show identifier [] = none from rfl] at h; exact Option.noConfusion h
    | cons c t =>
      by_cases hc : isAlphabetic c = true
      · exact ⟨c, t, rfl, hc⟩
      · rw [identifier_head_not_alphabetic (Bool.eq_false_iff.mpr hc) t] at h
        exact Option.noConfusion h
  · intro c t h
    rcases h with hd | he
    · exact identifier_head_not_alphabetic (isAsciiDigit_not_alphabetic c hd) t
    · subst he
      exact identifier_head_not_alphabetic (by decide) t

/-- Witness for the amended C10: the underscore-led and digit-led inputs
are both rejected. -/
theorem identifier_head_alphabetic_witness :
    identifier ('_' :: ("foo".toList)) = none ∧ identifier ('1' :: ("foo".toList)) = none :=
  ⟨identifier_head_alphabetic.2 '_' ("foo".toList) (Or.inr rfl),
   identifier_head_alphabetic.2 '1' ("foo".toList) (Or.inl (by decide))⟩

end Nnef
